import Mathlib

/-!
Verification of the mesh-generation core of `png_to_stl.py`.

The source converts a grayscale intensity grid into a triangle mesh, either in
"binary" mode (per-pixel extruded boxes with exposure-tested walls) or in
"continuous" mode (a draped height field with a flat bottom and boundary walls).

Shallow embedding conventions:
* grid values and all vertex coordinates are rationals (the Python floats carry
  exact decimal values in every scenario the claims mention);
* the normal returned by `compute_normal` is a real vector, since the Python
  code normalizes by the Euclidean norm (a square root);
* Python's division-by-zero exception is modelled by returning
  `Except.error RunError.zeroDivisionError` from the builders, which otherwise
  return `Except.ok` with the facet list;
* the row-major double loops of the source become `List.flatMap` over
  `List.range`, and the body of the binary loop is split into named pieces
  (`binary_tb`, `binary_wall_left`, ...) exactly following the blocks and the
  emission order of the source.
-/

namespace ImageToStl

/-- A 3D point with rational coordinates, as `(x, y, z)`. -/
abbrev Vec3 : Type := ℚ × ℚ × ℚ

/-- A (possibly irrational) normal vector, as `(nx, ny, nz)`. -/
abbrev RVec3 : Type := ℝ × ℝ × ℝ

/-- Componentwise vector subtraction, `a - b`. -/
def vsub (a b : Vec3) : Vec3 :=
  (a.1 - b.1, a.2.1 - b.2.1, a.2.2 - b.2.2)

/-- The cross product `a × b`. -/
def cross (a b : Vec3) : Vec3 :=
  (a.2.1 * b.2.2 - a.2.2 * b.2.1,
   a.2.2 * b.1 - a.1 * b.2.2,
   a.1 * b.2.1 - a.2.1 * b.1)

/-- The squared Euclidean magnitude of a vector; `np.linalg.norm` is its
square root. -/
def sqMag (v : Vec3) : ℚ :=
  v.1 * v.1 + v.2.1 * v.2.1 + v.2.2 * v.2.2

open Classical in
/-- `compute_normal(v1, v2, v3)` from the source: the cross product
`(v2 - v1) × (v3 - v1)` divided by its Euclidean norm, or the zero vector when
that norm is zero. -/
noncomputable def compute_normal (v1 v2 v3 : Vec3) : RVec3 :=
  let n := cross (vsub v2 v1) (vsub v3 v1)
  let norm : ℝ := Real.sqrt ((sqMag n : ℚ) : ℝ)
  if norm = 0 then ((0 : ℝ), (0 : ℝ), (0 : ℝ))
  else ((n.1 : ℝ) / norm, (n.2.1 : ℝ) / norm, (n.2.2 : ℝ) / norm)

/-- A facet as stored by the source: `(normal, v1, v2, v3)`. -/
abbrev Facet : Type := RVec3 × Vec3 × Vec3 × Vec3

/-- The facet appended by `add_triangle`: the computed normal paired with the
three vertices in order. -/
noncomputable def mkFacet (v1 v2 v3 : Vec3) : Facet :=
  (compute_normal v1 v2 v3, v1, v2, v3)

/-- `add_triangle(facets, v1, v2, v3)` from the source: compute the normal and
append the facet. -/
noncomputable def add_triangle (facets : List Facet) (v1 v2 v3 : Vec3) :
    List Facet :=
  facets ++ [mkFacet v1 v2 v3]

/-- The intensity grid, row-major (`grid[row][col]`), values in `[0, 255]`. -/
abbrev Grid : Type := List (List ℚ)

/-- Number of rows, `img_array.shape[0]`. -/
def rows (g : Grid) : ℕ := g.length

/-- Number of columns, `img_array.shape[1]` (all rows of a decoded image have
equal length). -/
def cols (g : Grid) : ℕ := (g.headD []).length

/-- `img_array[j, i]` (defaulting to `0` out of range; every claim only reads
in-range pixels). -/
def getPix (g : Grid) (j i : ℕ) : ℚ :=
  (g.getD j []).getD i 0

/-- The run configuration (`args` in the source), with the defaults of the
argument parser. -/
structure Args where
  extrude_height : ℚ
  x_size : ℚ
  y_size : ℚ
  binary : Bool
  threshold : ℚ

/-- The default configuration: height 15, footprint 120 × 120, threshold 128. -/
def defaultArgs : Args := ⟨15, 120, 120, false, 128⟩

/-- The error a run can raise. `zeroDivisionError` models Python's
`ZeroDivisionError`; `invalidGridDimensions` is the explicit guard error the
spec calls for (never produced by the source). -/
inductive RunError where
  | zeroDivisionError : RunError
  | invalidGridDimensions : RunError
deriving DecidableEq

/-- Binary mode cell width: `x_scale = args.x_size / cols`. -/
def x_scale_b (args : Args) (g : Grid) : ℚ := args.x_size / (cols g : ℚ)

/-- Binary mode cell depth: `y_scale = args.y_size / rows`. -/
def y_scale_b (args : Args) (g : Grid) : ℚ := args.y_size / (rows g : ℚ)

/-- The top and bottom faces emitted for a solid binary cell `(j, i)`, in
source order: two top triangles then two bottom triangles. -/
noncomputable def binary_tb (args : Args) (g : Grid) (j i : ℕ) : List Facet :=
  let x0 := (i : ℚ) * x_scale_b args g
  let x1 := ((i : ℚ) + 1) * x_scale_b args g
  let y0 := (j : ℚ) * y_scale_b args g
  let y1 := ((j : ℚ) + 1) * y_scale_b args g
  let z_top := args.extrude_height
  [mkFacet (x0, y0, z_top) (x1, y0, z_top) (x1, y1, z_top),
   mkFacet (x0, y0, z_top) (x1, y1, z_top) (x0, y1, z_top),
   mkFacet (x1, y1, 0) (x1, y0, 0) (x0, y0, 0),
   mkFacet (x0, y1, 0) (x1, y1, 0) (x0, y0, 0)]

/-- The left wall of binary cell `(j, i)`: emitted when `i == 0` or the left
neighbor is not solid. -/
noncomputable def binary_wall_left (args : Args) (g : Grid) (j i : ℕ) :
    List Facet :=
  if i = 0 ∨ args.threshold ≤ getPix g j (i - 1) then
    let x0 := (i : ℚ) * x_scale_b args g
    let y0 := (j : ℚ) * y_scale_b args g
    let y1 := ((j : ℚ) + 1) * y_scale_b args g
    let z_top := args.extrude_height
    [mkFacet (x0, y1, z_top) (x0, y0, z_top) (x0, y0, 0),
     mkFacet (x0, y1, z_top) (x0, y0, 0) (x0, y1, 0)]
  else []

/-- The right wall of binary cell `(j, i)`: emitted when `i == cols - 1` or the
right neighbor is not solid. -/
noncomputable def binary_wall_right (args : Args) (g : Grid) (j i : ℕ) :
    List Facet :=
  if i = cols g - 1 ∨ args.threshold ≤ getPix g j (i + 1) then
    let x1 := ((i : ℚ) + 1) * x_scale_b args g
    let y0 := (j : ℚ) * y_scale_b args g
    let y1 := ((j : ℚ) + 1) * y_scale_b args g
    let z_top := args.extrude_height
    [mkFacet (x1, y0, z_top) (x1, y1, z_top) (x1, y0, 0),
     mkFacet (x1, y1, z_top) (x1, y1, 0) (x1, y0, 0)]
  else []

/-- The top-row wall of binary cell `(j, i)`: emitted when `j == 0` or the
neighbor above is not solid. -/
noncomputable def binary_wall_top (args : Args) (g : Grid) (j i : ℕ) :
    List Facet :=
  if j = 0 ∨ args.threshold ≤ getPix g (j - 1) i then
    let x0 := (i : ℚ) * x_scale_b args g
    let x1 := ((i : ℚ) + 1) * x_scale_b args g
    let y0 := (j : ℚ) * y_scale_b args g
    let z_top := args.extrude_height
    [mkFacet (x1, y0, z_top) (x0, y0, z_top) (x0, y0, 0),
     mkFacet (x1, y0, z_top) (x0, y0, 0) (x1, y0, 0)]
  else []

/-- The bottom-row wall of binary cell `(j, i)`: emitted when `j == rows - 1`
or the neighbor below is not solid. -/
noncomputable def binary_wall_bottom (args : Args) (g : Grid) (j i : ℕ) :
    List Facet :=
  if j = rows g - 1 ∨ args.threshold ≤ getPix g (j + 1) i then
    let x0 := (i : ℚ) * x_scale_b args g
    let x1 := ((i : ℚ) + 1) * x_scale_b args g
    let y1 := ((j : ℚ) + 1) * y_scale_b args g
    let z_top := args.extrude_height
    [mkFacet (x0, y1, z_top) (x1, y1, z_top) (x0, y1, 0),
     mkFacet (x1, y1, z_top) (x1, y1, 0) (x0, y1, 0)]
  else []

/-- All wall facets of binary cell `(j, i)`, in source emission order:
left, right, top-row, bottom-row. -/
noncomputable def binary_walls (args : Args) (g : Grid) (j i : ℕ) :
    List Facet :=
  binary_wall_left args g j i ++ binary_wall_right args g j i ++
    binary_wall_top args g j i ++ binary_wall_bottom args g j i

/-- The facets contributed by binary cell `(j, i)`: nothing unless the pixel is
strictly below the threshold, otherwise top/bottom faces and the exposed
walls. -/
noncomputable def binary_cell (args : Args) (g : Grid) (j i : ℕ) :
    List Facet :=
  if getPix g j i < args.threshold then
    binary_tb args g j i ++ binary_walls args g j i
  else []

/-- `generate_binary_mesh(args, img_array)`. The two scale divisions are the
only fallible operations (`ZeroDivisionError` when the grid has zero columns or
zero rows, in that order); after them the row-major scan runs to completion. -/
noncomputable def generate_binary_mesh (args : Args) (g : Grid) :
    Except RunError (List Facet) :=
  if (cols g : ℚ) = 0 then .error .zeroDivisionError
  else if (rows g : ℚ) = 0 then .error .zeroDivisionError
  else .ok ((List.range (rows g)).flatMap fun j =>
    (List.range (cols g)).flatMap fun i => binary_cell args g j i)

/-- Continuous mode column spacing: `x_scale = args.x_size / (cols - 1)` —
edge-to-edge scaling, with a `ZeroDivisionError` raised by the source when
`cols = 1` (modelled in `generate_continuous_mesh`). -/
def x_scale_c (args : Args) (g : Grid) : ℚ := args.x_size / ((cols g : ℚ) - 1)

/-- Continuous mode row spacing: `y_scale = args.y_size / (rows - 1)`. -/
def y_scale_c (args : Args) (g : Grid) : ℚ := args.y_size / ((rows g : ℚ) - 1)

/-- `top_vertices[j, i]`: the draped height-field vertex
`(i * x_scale, j * y_scale, grid[j][i] / 255 * extrude_height)`. -/
def top_vertex (args : Args) (g : Grid) (j i : ℕ) : Vec3 :=
  ((i : ℚ) * x_scale_c args g,
   (j : ℚ) * y_scale_c args g,
   getPix g j i / 255 * args.extrude_height)

/-- The continuous top surface: for every interior quad, the two triangles
`(v1, v2, v3)` and `(v2, v4, v3)` with the diagonal from `(j, i+1)` to
`(j+1, i)`. -/
noncomputable def continuous_top (args : Args) (g : Grid) : List Facet :=
  (List.range (rows g - 1)).flatMap fun j =>
    (List.range (cols g - 1)).flatMap fun i =>
      let v1 := top_vertex args g j i
      let v2 := top_vertex args g j (i + 1)
      let v3 := top_vertex args g (j + 1) i
      let v4 := top_vertex args g (j + 1) (i + 1)
      [mkFacet v1 v2 v3, mkFacet v2 v4 v3]

/-- The continuous bottom face: two triangles spanning
`[0, x_size] × [0, y_size]` at `z = 0`, in source order
`(top_left, top_right, bottom_left)` then `(top_right, bottom_right,
bottom_left)`. -/
noncomputable def continuous_bottom (args : Args) : List Facet :=
  [mkFacet (0, 0, 0) (args.x_size, 0, 0) (0, args.y_size, 0),
   mkFacet (args.x_size, 0, 0) (args.x_size, args.y_size, 0)
     (0, args.y_size, 0)]

/-- The wall along the grid's row-0 edge (`j = 0`). -/
noncomputable def continuous_edge_top (args : Args) (g : Grid) : List Facet :=
  (List.range (cols g - 1)).flatMap fun i =>
    let v_top1 := top_vertex args g 0 i
    let v_top2 := top_vertex args g 0 (i + 1)
    let v_bot1 : Vec3 := (v_top1.1, v_top1.2.1, 0)
    let v_bot2 : Vec3 := (v_top2.1, v_top2.2.1, 0)
    [mkFacet v_top1 v_top2 v_bot1, mkFacet v_top2 v_bot2 v_bot1]

/-- The wall along the grid's last-row edge (`j = rows - 1`). -/
noncomputable def continuous_edge_bottom (args : Args) (g : Grid) :
    List Facet :=
  (List.range (cols g - 1)).flatMap fun i =>
    let v_top1 := top_vertex args g (rows g - 1) i
    let v_top2 := top_vertex args g (rows g - 1) (i + 1)
    let v_bot1 : Vec3 := (v_top1.1, v_top1.2.1, 0)
    let v_bot2 : Vec3 := (v_top2.1, v_top2.2.1, 0)
    [mkFacet v_top2 v_top1 v_bot1, mkFacet v_top2 v_bot1 v_bot2]

/-- The wall along the grid's column-0 edge (`i = 0`). -/
noncomputable def continuous_edge_left (args : Args) (g : Grid) :
    List Facet :=
  (List.range (rows g - 1)).flatMap fun j =>
    let v_top1 := top_vertex args g j 0
    let v_top2 := top_vertex args g (j + 1) 0
    let v_bot1 : Vec3 := (v_top1.1, v_top1.2.1, 0)
    let v_bot2 : Vec3 := (v_top2.1, v_top2.2.1, 0)
    [mkFacet v_top2 v_top1 v_bot1, mkFacet v_top2 v_bot1 v_bot2]

/-- The wall along the grid's last-column edge (`i = cols - 1`). -/
noncomputable def continuous_edge_right (args : Args) (g : Grid) :
    List Facet :=
  (List.range (rows g - 1)).flatMap fun j =>
    let v_top1 := top_vertex args g j (cols g - 1)
    let v_top2 := top_vertex args g (j + 1) (cols g - 1)
    let v_bot1 : Vec3 := (v_top1.1, v_top1.2.1, 0)
    let v_bot2 : Vec3 := (v_top2.1, v_top2.2.1, 0)
    [mkFacet v_top1 v_top2 v_bot1, mkFacet v_top2 v_bot2 v_bot1]

/-- The full continuous facet sequence, in source emission order: top surface,
bottom face, then the four boundary walls. -/
noncomputable def continuous_core (args : Args) (g : Grid) : List Facet :=
  continuous_top args g ++ continuous_bottom args ++
    continuous_edge_top args g ++ continuous_edge_bottom args g ++
    continuous_edge_left args g ++ continuous_edge_right args g

/-- `generate_continuous_mesh(args, img_array)`. The source computes
`x_size / (cols - 1)` and then `y_size / (rows - 1)` before anything else, so a
1-column grid and then a 1-row grid raise `ZeroDivisionError` (there is no
explicit dimension guard in the source). -/
noncomputable def generate_continuous_mesh (args : Args) (g : Grid) :
    Except RunError (List Facet) :=
  if (cols g : ℚ) - 1 = 0 then .error .zeroDivisionError
  else if (rows g : ℚ) - 1 = 0 then .error .zeroDivisionError
  else .ok (continuous_core args g)

/-! Predicates used to state the claims about edges of the produced mesh.
An edge of a facet is one of its three directed vertex pairs; a facet shares
the undirected edge `{a, b}` when it traverses it in either direction. -/

/-- The three stored vertices of a facet, normal dropped. -/
def triOf (f : Facet) : Vec3 × Vec3 × Vec3 := f.2

/-- The three directed edges of a vertex triple. -/
def triEdges (t : Vec3 × Vec3 × Vec3) : List (Vec3 × Vec3) :=
  [(t.1, t.2.1), (t.2.1, t.2.2), (t.2.2, t.1)]

/-- Does the triangle contain the undirected edge `{a, b}`? -/
def sharesEdge (a b : Vec3) (t : Vec3 × Vec3 × Vec3) : Bool :=
  decide ((a, b) ∈ triEdges t) || decide ((b, a) ∈ triEdges t)

/-- Does the triangle traverse the edge in the direction `a` to `b`? -/
def forwardEdge (a b : Vec3) (t : Vec3 × Vec3 × Vec3) : Bool :=
  decide ((a, b) ∈ triEdges t)

/-- The fixed 2 × 2 grid `[[0, 255], [255, 0]]` named by the spec's
continuous-determinism property. -/
def gridC : Grid := [[0, 255], [255, 0]]

/-- A 3 × 3 all-solid grid (every pixel 0, far below the default
threshold 128). -/
def grid3 : Grid := [[0, 0, 0], [0, 0, 0], [0, 0, 0]]

/-! Helper lemmas about the geometry kernel. -/

lemma sqMag_nonneg (v : Vec3) : 0 ≤ sqMag v :=
  add_nonneg (add_nonneg (mul_self_nonneg _) (mul_self_nonneg _))
    (mul_self_nonneg _)

lemma compute_normal_degenerate (v1 v2 v3 : Vec3)
    (h : sqMag (cross (vsub v2 v1) (vsub v3 v1)) = 0) :
    compute_normal v1 v2 v3 = ((0 : ℝ), 0, 0) := by
  simp only [compute_normal]
  rw [h]
  norm_num

lemma compute_normal_of_cross (v1 v2 v3 n : Vec3) (c : ℚ)
    (h : cross (vsub v2 v1) (vsub v3 v1) = n) (hc : 0 < c)
    (hs : sqMag n = c * c) :
    compute_normal v1 v2 v3 =
      (((n.1 / c : ℚ) : ℝ), ((n.2.1 / c : ℚ) : ℝ), ((n.2.2 / c : ℚ) : ℝ)) := by
  have hcR : (0 : ℝ) < (c : ℝ) := by exact_mod_cast hc
  have hsqrt : Real.sqrt ((sqMag n : ℚ) : ℝ) = (c : ℝ) := by
    rw [hs]
    push_cast
    exact Real.sqrt_mul_self hcR.le
  simp only [compute_normal, h, hsqrt]
  rw [if_neg (ne_of_gt hcR)]
  push_cast
  rfl

/-! The claims. -/

/-- C7: when the cross product `(v2 - v1) × (v3 - v1)` has zero magnitude
(collinear or coincident points), `compute_normal` returns the zero vector;
and whenever it does divide, the divisor (the Euclidean norm) is nonzero, so
the division in the normalization step is unreachable at zero magnitude. -/
theorem c7_degenerate_cross_yields_zero_vector (v1 v2 v3 : Vec3) :
    (sqMag (cross (vsub v2 v1) (vsub v3 v1)) = 0 →
      compute_normal v1 v2 v3 = ((0 : ℝ), 0, 0)) ∧
    (sqMag (cross (vsub v2 v1) (vsub v3 v1)) ≠ 0 →
      Real.sqrt ((sqMag (cross (vsub v2 v1) (vsub v3 v1)) : ℚ) : ℝ) ≠ 0) := by
  refine ⟨compute_normal_degenerate v1 v2 v3, fun hne => ?_⟩
  have hpos : 0 < sqMag (cross (vsub v2 v1) (vsub v3 v1)) :=
    lt_of_le_of_ne (sqMag_nonneg _) (Ne.symm hne)
  have : (0 : ℝ) < ((sqMag (cross (vsub v2 v1) (vsub v3 v1)) : ℚ) : ℝ) := by
    exact_mod_cast hpos
  exact ne_of_gt (Real.sqrt_pos.mpr this)

/-- Witness for C7 at the collinear points `(0,0,0)`, `(1,1,1)`, `(2,2,2)`. -/
theorem c7_degenerate_cross_yields_zero_vector_witness :
    sqMag (cross (vsub ((1 : ℚ), (1 : ℚ), (1 : ℚ)) (0, 0, 0))
      (vsub (2, 2, 2) (0, 0, 0))) = 0 ∧
    compute_normal (0, 0, 0) (1, 1, 1) (2, 2, 2) = ((0 : ℝ), 0, 0) :=
  ⟨by norm_num [vsub, cross, sqMag],
   (c7_degenerate_cross_yields_zero_vector (0, 0, 0) (1, 1, 1) (2, 2, 2)).1
     (by norm_num [vsub, cross, sqMag])⟩

/-- C5: a binary cell contributes facets exactly when its pixel is strictly
below the threshold; in particular a pixel equal to the threshold is non-solid
and contributes no facets. -/
theorem c5_solid_iff_strictly_below_threshold (args : Args) (g : Grid)
    (j i : ℕ) :
    (binary_cell args g j i ≠ [] ↔ getPix g j i < args.threshold) ∧
    (getPix g j i = args.threshold → binary_cell args g j i = []) := by
  constructor
  · constructor
    · intro hne
      by_contra hlt
      exact hne (by simp [binary_cell, hlt])
    · intro hlt
      simp [binary_cell, hlt, binary_tb]
  · intro heq
    simp [binary_cell, heq]

/-- Witness for C5: with the default threshold 128, the cell of the grid
`[[128]]` is non-solid and emits nothing. -/
theorem c5_solid_iff_strictly_below_threshold_witness :
    getPix [[(128 : ℚ)]] 0 0 = defaultArgs.threshold ∧
    binary_cell defaultArgs [[(128 : ℚ)]] 0 0 = [] :=
  ⟨rfl, (c5_solid_iff_strictly_below_threshold defaultArgs [[(128 : ℚ)]] 0 0).2
    rfl⟩

/-- C4 (demonstrating the missing guard): on any grid within the input
contract (`rows ≥ 1`, `cols ≥ 1`) that violates the continuous-mode minimum
(`rows < 2` or `cols < 2`), the source raises `ZeroDivisionError` from the
edge-to-edge scale divisions — it never produces the explicit
`InvalidGridDimensions` error the spec requires. -/
theorem c4_continuous_raises_zero_division (args : Args) (g : Grid)
    (h1 : 1 ≤ rows g) (h2 : 1 ≤ cols g)
    (hsmall : rows g < 2 ∨ cols g < 2) :
    generate_continuous_mesh args g = .error .zeroDivisionError := by
  unfold generate_continuous_mesh
  rcases hsmall with hr | hc
  · have hrow : rows g = 1 := by omega
    by_cases hcol : (cols g : ℚ) - 1 = 0
    · rw [if_pos hcol]
    · rw [if_neg hcol, if_pos (by rw [hrow]; norm_num)]
  · have hcol : cols g = 1 := by omega
    rw [if_pos (by rw [hcol]; norm_num)]

/-- Witness for C4 at the 1 × 2 grid `[[0, 0]]`. -/
theorem c4_continuous_raises_zero_division_witness :
    1 ≤ rows [[(0 : ℚ), 0]] ∧ 1 ≤ cols [[(0 : ℚ), 0]] ∧
    rows [[(0 : ℚ), 0]] < 2 ∧
    generate_continuous_mesh defaultArgs [[(0 : ℚ), 0]] =
      .error .zeroDivisionError :=
  ⟨by decide, by decide, by decide,
   c4_continuous_raises_zero_division defaultArgs [[(0 : ℚ), 0]]
     (by decide) (by decide) (Or.inl (by decide))⟩

lemma length_flatMap_const {α : Type} (f : ℕ → List α) (k : ℕ)
    (h : ∀ i, (f i).length = k) (n : ℕ) :
    ((List.range n).flatMap f).length = n * k := by
  induction n with
  | zero => simp
  | succ m ih =>
    rw [List.range_succ, List.flatMap_append]
    simp [ih, h m, Nat.succ_mul]

/-- C10: when no pixel is strictly below the threshold, the binary builder
returns normally with the empty facet sequence. -/
theorem c10_all_background_empty_mesh (args : Args) (g : Grid)
    (h1 : 1 ≤ rows g) (h2 : 1 ≤ cols g)
    (hall : ∀ j i, j < rows g → i < cols g →
      args.threshold ≤ getPix g j i) :
    generate_binary_mesh args g = .ok [] := by
  unfold generate_binary_mesh
  rw [if_neg (by exact_mod_cast Nat.one_le_iff_ne_zero.mp h2),
    if_neg (by exact_mod_cast Nat.one_le_iff_ne_zero.mp h1)]
  congr 1
  rw [List.flatMap_eq_nil_iff]
  intro j hj
  rw [List.flatMap_eq_nil_iff]
  intro i hi
  have hbg := hall j i (List.mem_range.mp hj) (List.mem_range.mp hi)
  simp [binary_cell, not_lt.mpr hbg]

/-- Witness for C10 at the 1 × 1 grid `[[200]]` with threshold 128. -/
theorem c10_all_background_empty_mesh_witness :
    1 ≤ rows [[(200 : ℚ)]] ∧ 1 ≤ cols [[(200 : ℚ)]] ∧
    (∀ j i, j < rows [[(200 : ℚ)]] → i < cols [[(200 : ℚ)]] →
      defaultArgs.threshold ≤ getPix [[(200 : ℚ)]] j i) ∧
    generate_binary_mesh defaultArgs [[(200 : ℚ)]] = .ok [] := by
  have hall : ∀ j i, j < rows [[(200 : ℚ)]] → i < cols [[(200 : ℚ)]] →
      defaultArgs.threshold ≤ getPix [[(200 : ℚ)]] j i := by
    intro j i hj hi
    have hj1 : j = 0 := by simpa [rows] using hj
    have hi1 : i = 0 := by simpa [cols] using hi
    subst hj1; subst hi1
    norm_num [getPix, defaultArgs]
  exact ⟨by decide, by decide, hall,
    c10_all_background_empty_mesh defaultArgs [[(200 : ℚ)]]
      (by decide) (by decide) hall⟩

/-- C9: the continuous builder emits exactly `2 * (rows-1) * (cols-1)` top
triangles, 2 bottom triangles, `2 * (cols-1)` triangles along each of the
row-0 and last-row walls and `2 * (rows-1)` along each of the column-0 and
last-column walls; instantiated at the fixed grid `[[0, 255], [255, 0]]` with
the default configuration this gives 2 + 2 + 2 + 2 + 2 + 2 = 12 triangles. -/
theorem c9_continuous_triangle_counts :
    (∀ (args : Args) (g : Grid),
      (continuous_top args g).length = 2 * ((rows g - 1) * (cols g - 1)) ∧
      (continuous_bottom args).length = 2 ∧
      (continuous_edge_top args g).length = 2 * (cols g - 1) ∧
      (continuous_edge_bottom args g).length = 2 * (cols g - 1) ∧
      (continuous_edge_left args g).length = 2 * (rows g - 1) ∧
      (continuous_edge_right args g).length = 2 * (rows g - 1)) ∧
    generate_continuous_mesh defaultArgs gridC =
      .ok (continuous_core defaultArgs gridC) ∧
    (continuous_top defaultArgs gridC).length = 2 ∧
    (continuous_bottom defaultArgs).length = 2 ∧
    (continuous_edge_top defaultArgs gridC).length = 2 ∧
    (continuous_edge_bottom defaultArgs gridC).length = 2 ∧
    (continuous_edge_left defaultArgs gridC).length = 2 ∧
    (continuous_edge_right defaultArgs gridC).length = 2 ∧
    (continuous_core defaultArgs gridC).length = 12 := by
  have hgen : ∀ (args : Args) (g : Grid),
      (continuous_top args g).length = 2 * ((rows g - 1) * (cols g - 1)) ∧
      (continuous_bottom args).length = 2 ∧
      (continuous_edge_top args g).length = 2 * (cols g - 1) ∧
      (continuous_edge_bottom args g).length = 2 * (cols g - 1) ∧
      (continuous_edge_left args g).length = 2 * (rows g - 1) ∧
      (continuous_edge_right args g).length = 2 * (rows g - 1) := by
    intro args g
    refine ⟨?_, by simp [continuous_bottom], ?_, ?_, ?_, ?_⟩
    · simp only [continuous_top]
      refine (length_flatMap_const _ ((cols g - 1) * 2) (fun j => ?_)
        (rows g - 1)).trans (by ring)
      exact length_flatMap_const _ 2 (fun i => by rfl) (cols g - 1)
    · simp only [continuous_edge_top]
      exact (length_flatMap_const _ 2 (fun i => by rfl) (cols g - 1)).trans
        (by ring)
    · simp only [continuous_edge_bottom]
      exact (length_flatMap_const _ 2 (fun i => by rfl) (cols g - 1)).trans
        (by ring)
    · simp only [continuous_edge_left]
      exact (length_flatMap_const _ 2 (fun j => by rfl) (rows g - 1)).trans
        (by ring)
    · simp only [continuous_edge_right]
      exact (length_flatMap_const _ 2 (fun j => by rfl) (rows g - 1)).trans
        (by ring)
  have hrows : rows gridC = 2 := rfl
  have hcols : cols gridC = 2 := rfl
  have hc := hgen defaultArgs gridC
  refine ⟨hgen, ?_, ?_, hc.2.1, ?_, ?_, ?_, ?_, ?_⟩
  · unfold generate_continuous_mesh
    rw [if_neg (by rw [hcols]; norm_num), if_neg (by rw [hrows]; norm_num)]
  · rw [hc.1, hrows, hcols]
  · rw [hc.2.2.1, hcols]
  · rw [hc.2.2.2.1, hcols]
  · rw [hc.2.2.2.2.1, hrows]
  · rw [hc.2.2.2.2.2, hrows]
  · simp only [continuous_core, List.length_append]
    rw [hc.1, hc.2.1, hc.2.2.1, hc.2.2.2.1, hc.2.2.2.2.1, hc.2.2.2.2.2,
      hrows, hcols]

/-! Helpers for the normal round-trip law: every facet either builder ever
appends is `mkFacet` of its three vertices. -/

lemma mem_ite_nil {α : Type} {c : Prop} [Decidable c] {l : List α} {x : α}
    (h : x ∈ if c then l else []) : x ∈ l := by
  split at h
  · exact h
  · exact absurd h (List.not_mem_nil x)

lemma roundtrip_of_mem_pair {a b c d e v : Vec3} {x : Facet}
    (h : x ∈ [mkFacet a b c, mkFacet d e v]) :
    x.1 = compute_normal x.2.1 x.2.2.1 x.2.2.2 := by
  rcases List.mem_cons.mp h with rfl | h2
  · rfl
  · rcases List.mem_cons.mp h2 with rfl | h3
    · rfl
    · exact absurd h3 (List.not_mem_nil x)

lemma roundtrip_of_mem_binary_cell (args : Args) (g : Grid) (j i : ℕ)
    {x : Facet} (h : x ∈ binary_cell args g j i) :
    x.1 = compute_normal x.2.1 x.2.2.1 x.2.2.2 := by
  simp only [binary_cell] at h
  have h' := mem_ite_nil h
  rcases List.mem_append.mp h' with htb | hw
  · simp only [binary_tb] at htb
    rcases List.mem_cons.mp htb with rfl | h2
    · rfl
    · rcases List.mem_cons.mp h2 with rfl | h3
      · rfl
      · exact roundtrip_of_mem_pair h3
  · simp only [binary_walls] at hw
    rcases List.mem_append.mp hw with h1 | hrest
    · rcases List.mem_append.mp h1 with h1 | h2
      · rcases List.mem_append.mp h1 with h1 | h2
        · exact roundtrip_of_mem_pair (mem_ite_nil (by simpa [binary_wall_left] using h1))
        · exact roundtrip_of_mem_pair (mem_ite_nil (by simpa [binary_wall_right] using h2))
      · exact roundtrip_of_mem_pair (mem_ite_nil (by simpa [binary_wall_top] using h2))
    · exact roundtrip_of_mem_pair (mem_ite_nil (by simpa [binary_wall_bottom] using hrest))

lemma roundtrip_of_mem_continuous_core (args : Args) (g : Grid)
    {x : Facet} (h : x ∈ continuous_core args g) :
    x.1 = compute_normal x.2.1 x.2.2.1 x.2.2.2 := by
  simp only [continuous_core, List.append_assoc, List.mem_append] at h
  rcases h with h | h | h | h | h | h
  · simp only [continuous_top] at h
    rcases List.mem_flatMap.mp h with ⟨j, _, hj⟩
    rcases List.mem_flatMap.mp hj with ⟨i, _, hi⟩
    exact roundtrip_of_mem_pair hi
  · simp only [continuous_bottom] at h
    exact roundtrip_of_mem_pair h
  · simp only [continuous_edge_top] at h
    rcases List.mem_flatMap.mp h with ⟨i, _, hi⟩
    exact roundtrip_of_mem_pair hi
  · simp only [continuous_edge_bottom] at h
    rcases List.mem_flatMap.mp h with ⟨i, _, hi⟩
    exact roundtrip_of_mem_pair hi
  · simp only [continuous_edge_left] at h
    rcases List.mem_flatMap.mp h with ⟨j, _, hj⟩
    exact roundtrip_of_mem_pair hj
  · simp only [continuous_edge_right] at h
    rcases List.mem_flatMap.mp h with ⟨j, _, hj⟩
    exact roundtrip_of_mem_pair hj

/-- On the 1 × 1 solid grid `[[0]]`, the binary builder's output is exactly
the facet list of its single cell. -/
lemma binary_mesh_one_cell (args : Args) :
    generate_binary_mesh args [[(0 : ℚ)]] =
      .ok (binary_cell args [[(0 : ℚ)]] 0 0) := by
  unfold generate_binary_mesh
  rw [if_neg (by norm_num [cols]), if_neg (by norm_num [rows])]
  have h1 : List.range 1 = [0] := rfl
  simp [rows, cols, h1]

/-- C8: every facet in the output of either builder stores exactly the normal
that `compute_normal` returns on its three vertices in stored order. -/
theorem c8_stored_normal_roundtrip (args : Args) (g : Grid)
    (fs : List Facet)
    (hrun : generate_binary_mesh args g = .ok fs ∨
      generate_continuous_mesh args g = .ok fs)
    (f : Facet) (hf : f ∈ fs) :
    f.1 = compute_normal f.2.1 f.2.2.1 f.2.2.2 := by
  rcases hrun with hb | hc
  · unfold generate_binary_mesh at hb
    split at hb
    · exact absurd hb (by simp)
    · split at hb
      · exact absurd hb (by simp)
      · rw [Except.ok.injEq] at hb
        subst hb
        rcases List.mem_flatMap.mp hf with ⟨j, _, hj⟩
        rcases List.mem_flatMap.mp hj with ⟨i, _, hi⟩
        exact roundtrip_of_mem_binary_cell args g j i hi
  · unfold generate_continuous_mesh at hc
    split at hc
    · exact absurd hc (by simp)
    · split at hc
      · exact absurd hc (by simp)
      · rw [Except.ok.injEq] at hc
        subst hc
        exact roundtrip_of_mem_continuous_core args g hf

/-- Witness for C8: the first top facet of the binary mesh of `[[0]]`. -/
theorem c8_stored_normal_roundtrip_witness :
    (generate_binary_mesh defaultArgs [[(0 : ℚ)]] =
        .ok (binary_cell defaultArgs [[(0 : ℚ)]] 0 0) ∨
      generate_continuous_mesh defaultArgs [[(0 : ℚ)]] =
        .ok (binary_cell defaultArgs [[(0 : ℚ)]] 0 0)) ∧
    mkFacet (0, 0, 15) (120, 0, 15) (120, 120, 15) ∈
      binary_cell defaultArgs [[(0 : ℚ)]] 0 0 ∧
    (mkFacet (0, 0, 15) (120, 0, 15) (120, 120, 15)).1 =
      compute_normal (0, 0, 15) (120, 0, 15) (120, 120, 15) := by
  have hrun : generate_binary_mesh defaultArgs [[(0 : ℚ)]] =
        .ok (binary_cell defaultArgs [[(0 : ℚ)]] 0 0) ∨
      generate_continuous_mesh defaultArgs [[(0 : ℚ)]] =
        .ok (binary_cell defaultArgs [[(0 : ℚ)]] 0 0) :=
    Or.inl (binary_mesh_one_cell defaultArgs)
  have hmem : mkFacet (0, 0, 15) (120, 0, 15) (120, 120, 15) ∈
      binary_cell defaultArgs [[(0 : ℚ)]] 0 0 := by
    have : getPix [[(0 : ℚ)]] 0 0 < defaultArgs.threshold := by
      norm_num [getPix, defaultArgs]
    simp only [binary_cell, if_pos this, binary_tb, List.mem_append]
    left
    norm_num [x_scale_b, y_scale_b, rows, cols, defaultArgs]
  exact ⟨hrun, hmem,
    c8_stored_normal_roundtrip defaultArgs [[(0 : ℚ)]] _ hrun _ hmem⟩

lemma ite_ne_nil_iff {α : Type} {c : Prop} [Decidable c] {l : List α}
    (hl : l ≠ []) : (if c then l else []) ≠ [] ↔ c := by
  by_cases h : c
  · simp [h, hl]
  · simp [h]

/-- C6: for a solid cell the builder emits its top/bottom faces plus exactly
the walls whose exposure test passes; a wall is present if and only if the
neighbor in that direction is out-of-grid or not solid. On any all-solid
3 × 3 grid the center cell contributes 0 wall facets, each corner cell 4
(two walls), and each edge-center cell 2 (one wall). -/
theorem c6_wall_exposure (args : Args) (g : Grid) :
    (∀ j i, getPix g j i < args.threshold →
      binary_cell args g j i =
        binary_tb args g j i ++ binary_walls args g j i) ∧
    (∀ j i,
      (binary_wall_left args g j i ≠ [] ↔
        i = 0 ∨ args.threshold ≤ getPix g j (i - 1)) ∧
      (binary_wall_right args g j i ≠ [] ↔
        i = cols g - 1 ∨ args.threshold ≤ getPix g j (i + 1)) ∧
      (binary_wall_top args g j i ≠ [] ↔
        j = 0 ∨ args.threshold ≤ getPix g (j - 1) i) ∧
      (binary_wall_bottom args g j i ≠ [] ↔
        j = rows g - 1 ∨ args.threshold ≤ getPix g (j + 1) i)) ∧
    (rows g = 3 → cols g = 3 →
      (∀ j i, j < 3 → i < 3 → getPix g j i < args.threshold) →
      (binary_walls args g 1 1).length = 0 ∧
      (binary_walls args g 0 0).length = 4 ∧
      (binary_walls args g 0 2).length = 4 ∧
      (binary_walls args g 2 0).length = 4 ∧
      (binary_walls args g 2 2).length = 4 ∧
      (binary_walls args g 0 1).length = 2 ∧
      (binary_walls args g 1 0).length = 2 ∧
      (binary_walls args g 1 2).length = 2 ∧
      (binary_walls args g 2 1).length = 2) := by
  refine ⟨fun j i hs => by simp [binary_cell, hs], fun j i => ?_, ?_⟩
  · refine ⟨?_, ?_, ?_, ?_⟩
    · simp only [binary_wall_left]
      exact ite_ne_nil_iff (by simp)
    · simp only [binary_wall_right]
      exact ite_ne_nil_iff (by simp)
    · simp only [binary_wall_top]
      exact ite_ne_nil_iff (by simp)
    · simp only [binary_wall_bottom]
      exact ite_ne_nil_iff (by simp)
  · intro hrows hcols hall
    have n00 := not_le.mpr (hall 0 0 (by omega) (by omega))
    have n01 := not_le.mpr (hall 0 1 (by omega) (by omega))
    have n02 := not_le.mpr (hall 0 2 (by omega) (by omega))
    have n10 := not_le.mpr (hall 1 0 (by omega) (by omega))
    have n11 := not_le.mpr (hall 1 1 (by omega) (by omega))
    have n12 := not_le.mpr (hall 1 2 (by omega) (by omega))
    have n20 := not_le.mpr (hall 2 0 (by omega) (by omega))
    have n21 := not_le.mpr (hall 2 1 (by omega) (by omega))
    have n22 := not_le.mpr (hall 2 2 (by omega) (by omega))
    refine ⟨?_, ?_, ?_, ?_, ?_, ?_, ?_, ?_, ?_⟩ <;>
      simp [binary_walls, binary_wall_left, binary_wall_right,
        binary_wall_top, binary_wall_bottom, hrows, hcols,
        n00, n01, n02, n10, n11, n12, n20, n21, n22]

/-- Witness for C6 on the all-zero 3 × 3 grid with default threshold. -/
theorem c6_wall_exposure_witness :
    rows grid3 = 3 ∧ cols grid3 = 3 ∧
    (∀ j i, j < 3 → i < 3 → getPix grid3 j i < defaultArgs.threshold) ∧
    (binary_walls defaultArgs grid3 1 1).length = 0 ∧
    (binary_walls defaultArgs grid3 0 0).length = 4 ∧
    (binary_walls defaultArgs grid3 0 1).length = 2 := by
  have hall : ∀ j i, j < 3 → i < 3 →
      getPix grid3 j i < defaultArgs.threshold := by
    intro j i hj hi
    interval_cases j <;> interval_cases i <;>
      norm_num [getPix, grid3, defaultArgs]
  have h := (c6_wall_exposure defaultArgs grid3).2.2 rfl rfl hall
  exact ⟨rfl, rfl, hall, h.1, h.2.1, h.2.2.2.2.2.1⟩

lemma triOf_mkFacet (v1 v2 v3 : Vec3) : triOf (mkFacet v1 v2 v3) = (v1, v2, v3) :=
  rfl

/-- C2 (code-bug demonstration): on the solid 1 × 1 grid with the default
configuration, both left-wall triangles carry the normal `(+1, 0, 0)` —
pointing in +X, into the solid, where the claim requires −X — and both
right-wall triangles carry `(-1, 0, 0)` instead of the required +X. -/
theorem c2_binary_side_walls_wound_inward :
    binary_wall_left defaultArgs [[(0 : ℚ)]] 0 0 =
      [mkFacet (0, 120, 15) (0, 0, 15) (0, 0, 0),
       mkFacet (0, 120, 15) (0, 0, 0) (0, 120, 0)] ∧
    compute_normal (0, 120, 15) (0, 0, 15) (0, 0, 0) = ((1 : ℝ), 0, 0) ∧
    compute_normal (0, 120, 15) (0, 0, 0) (0, 120, 0) = ((1 : ℝ), 0, 0) ∧
    binary_wall_right defaultArgs [[(0 : ℚ)]] 0 0 =
      [mkFacet (120, 0, 15) (120, 120, 15) (120, 0, 0),
       mkFacet (120, 120, 15) (120, 120, 0) (120, 0, 0)] ∧
    compute_normal (120, 0, 15) (120, 120, 15) (120, 0, 0) =
      ((-1 : ℝ), 0, 0) ∧
    compute_normal (120, 120, 15) (120, 120, 0) (120, 0, 0) =
      ((-1 : ℝ), 0, 0) := by
  refine ⟨?_, ?_, ?_, ?_, ?_, ?_⟩
  · norm_num [binary_wall_left, x_scale_b, y_scale_b, rows, cols,
      defaultArgs]
  · rw [compute_normal_of_cross (0, 120, 15) (0, 0, 15) (0, 0, 0)
      (1800, 0, 0) 1800 (by norm_num [vsub, cross]) (by norm_num)
      (by norm_num [sqMag])]
    norm_num
  · rw [compute_normal_of_cross (0, 120, 15) (0, 0, 0) (0, 120, 0)
      (1800, 0, 0) 1800 (by norm_num [vsub, cross]) (by norm_num)
      (by norm_num [sqMag])]
    norm_num
  · norm_num [binary_wall_right, x_scale_b, y_scale_b, rows, cols,
      defaultArgs]
  · rw [compute_normal_of_cross (120, 0, 15) (120, 120, 15) (120, 0, 0)
      (-1800, 0, 0) 1800 (by norm_num [vsub, cross]) (by norm_num)
      (by norm_num [sqMag])]
    norm_num
  · rw [compute_normal_of_cross (120, 120, 15) (120, 120, 0) (120, 0, 0)
      (-1800, 0, 0) 1800 (by norm_num [vsub, cross]) (by norm_num)
      (by norm_num [sqMag])]
    norm_num

/-- C3 (code-bug demonstration): with the default configuration, both bottom
triangles of the continuous mesh carry the normal `(0, 0, +1)` — pointing up
into the body, where the claim requires −Z — and on the grid
`[[0, 255], [255, 0]]` the non-degenerate row-0 wall triangle carries
`(0, +1, 0)`, toward the grid interior, where the claim requires a −Y
component. -/
theorem c3_continuous_bottom_and_walls_wound_inward :
    continuous_bottom defaultArgs =
      [mkFacet (0, 0, 0) (120, 0, 0) (0, 120, 0),
       mkFacet (120, 0, 0) (120, 120, 0) (0, 120, 0)] ∧
    compute_normal (0, 0, 0) (120, 0, 0) (0, 120, 0) = ((0 : ℝ), 0, 1) ∧
    compute_normal (120, 0, 0) (120, 120, 0) (0, 120, 0) =
      ((0 : ℝ), 0, 1) ∧
    continuous_edge_top defaultArgs gridC =
      [mkFacet (0, 0, 0) (120, 0, 15) (0, 0, 0),
       mkFacet (120, 0, 15) (120, 0, 0) (0, 0, 0)] ∧
    compute_normal (120, 0, 15) (120, 0, 0) (0, 0, 0) = ((0 : ℝ), 1, 0) := by
  have hrange1 : List.range 1 = [0] := rfl
  have hp00 : getPix gridC 0 0 = 0 := rfl
  have hp01 : getPix gridC 0 1 = 255 := rfl
  have hcols : cols gridC = 2 := rfl
  have hrows : rows gridC = 2 := rfl
  refine ⟨?_, ?_, ?_, ?_, ?_⟩
  · norm_num [continuous_bottom, defaultArgs]
  · rw [compute_normal_of_cross (0, 0, 0) (120, 0, 0) (0, 120, 0)
      (0, 0, 14400) 14400 (by norm_num [vsub, cross]) (by norm_num)
      (by norm_num [sqMag])]
    norm_num
  · rw [compute_normal_of_cross (120, 0, 0) (120, 120, 0) (0, 120, 0)
      (0, 0, 14400) 14400 (by norm_num [vsub, cross]) (by norm_num)
      (by norm_num [sqMag])]
    norm_num
  · norm_num [continuous_edge_top, top_vertex, x_scale_c, y_scale_c,
      hrows, hcols, hp00, hp01, hrange1, defaultArgs]
  · rw [compute_normal_of_cross (120, 0, 15) (120, 0, 0) (0, 0, 0)
      (0, 1800, 0) 1800 (by norm_num [vsub, cross]) (by norm_num)
      (by norm_num [sqMag])]
    norm_num

/-- C1 (code-bug demonstration): in the binary mesh of the solid 1 × 1 grid,
the top edge from `(120, 0, 15)` to `(120, 120, 15)` is shared by exactly two
facets (a top-face triangle and a right-wall triangle), but both traverse it
in the same direction — the two facets do not have opposing orientation along
their shared edge, violating the closure invariant as stated. -/
theorem c1_shared_edge_without_opposing_orientation :
    generate_binary_mesh defaultArgs [[(0 : ℚ)]] =
      .ok (binary_cell defaultArgs [[(0 : ℚ)]] 0 0) ∧
    ((binary_cell defaultArgs [[(0 : ℚ)]] 0 0).map triOf).countP
      (sharesEdge (120, 0, 15) (120, 120, 15)) = 2 ∧
    ((binary_cell defaultArgs [[(0 : ℚ)]] 0 0).map triOf).countP
      (forwardEdge (120, 0, 15) (120, 120, 15)) = 2 := by
  have hpix : getPix [[(0 : ℚ)]] 0 0 = 0 := rfl
  have hmap : (binary_cell defaultArgs [[(0 : ℚ)]] 0 0).map triOf =
      [((0, 0, 15), (120, 0, 15), (120, 120, 15)),
       ((0, 0, 15), (120, 120, 15), (0, 120, 15)),
       ((120, 120, 0), (120, 0, 0), (0, 0, 0)),
       ((0, 120, 0), (120, 120, 0), (0, 0, 0)),
       ((0, 120, 15), (0, 0, 15), (0, 0, 0)),
       ((0, 120, 15), (0, 0, 0), (0, 120, 0)),
       ((120, 0, 15), (120, 120, 15), (120, 0, 0)),
       ((120, 120, 15), (120, 120, 0), (120, 0, 0)),
       ((120, 0, 15), (0, 0, 15), (0, 0, 0)),
       ((120, 0, 15), (0, 0, 0), (120, 0, 0)),
       ((0, 120, 15), (120, 120, 15), (0, 120, 0)),
       ((120, 120, 15), (120, 120, 0), (0, 120, 0))] := by
    norm_num [binary_cell, binary_tb, binary_walls, binary_wall_left,
      binary_wall_right, binary_wall_top, binary_wall_bottom,
      x_scale_b, y_scale_b, rows, cols, hpix, defaultArgs, triOf_mkFacet]
  refine ⟨binary_mesh_one_cell defaultArgs, ?_, ?_⟩
  · rw [hmap]
    norm_num [sharesEdge, forwardEdge, triEdges, List.countP_cons,
      List.countP_nil, Prod.ext_iff]
  · rw [hmap]
    norm_num [forwardEdge, triEdges, List.countP_cons,
      List.countP_nil, Prod.ext_iff]

end ImageToStl
